import Mathlib

/-!
Verification development for the MyLinks "second brain" ingestion pipeline
(Python sources under `functions/`).

The Python code is shallowly embedded: pure string and scheduling logic is
translated definition-by-definition; external effects (HTTP fetches, the
HTML parser, the LLM/embedding provider, the document store, the messaging
transport) enter as explicit oracle parameters, and Python exceptions are
modelled with `Except`/`Option` values threaded through the same control
flow as the source's `try`/`except` blocks.

Times are modelled as integer epoch-milliseconds; `timedelta(days=n)`
becomes `n * dayMs`.  Python strings are modelled as `List Char` /
`String`; the handful of `str` methods the code uses (`strip`, `lower`,
`split`, `in`, `startswith`, slicing) are reimplemented below with
CPython's semantics on the character sequences the repository manipulates
(ASCII plus Hebrew text; case mapping is ASCII since Hebrew is caseless).
-/

namespace MyLinks

/-! ## Python string primitives -/

/-- The whitespace set of CPython's default `str.strip` -/
def pyIsSpace (c : Char) : Bool :=
  c = ' ' || c = '\t' || c = '\n' || c = '\r' || c = '\x0b' || c = '\x0c'

/-- `str.strip()` on a character list. -/
def pyStripL (l : List Char) : List Char :=
  ((l.dropWhile pyIsSpace).reverse.dropWhile pyIsSpace).reverse

/-- `str.strip()` -/
def pyStrip (s : String) : String := ⟨pyStripL s.data⟩

/-- `str.lower()` (ASCII case mapping; the reminder texts are ASCII or
Hebrew, and Hebrew has no case). -/
def pyLower (s : String) : String := ⟨s.data.map Char.toLower⟩

/-- Substring test on lists: is `needle` a contiguous infix of `hay`? -/
def listContainsSub (needle : List Char) : List Char → Bool
  | [] => needle.isEmpty
  | c :: cs => needle.isPrefixOf (c :: cs) || listContainsSub needle cs

/-- Python's `needle in hay` on strings. -/
def strContains (hay needle : String) : Bool :=
  listContainsSub needle.data hay.data

/-- Python's `hay.startswith(pre)`. -/
def pyStartsWith (hay pre : String) : Bool :=
  pre.data.isPrefixOf hay.data

/-- `str.split(sep)` for a non-empty separator, fuel-driven so that the
kernel can evaluate it (`fuel` is the length of the list being split; when
the fuel is exhausted the remaining characters become the final field,
which never happens for `fuel = l.length`). -/
def pySplitFuel (sep : List Char) : Nat → List Char → List (List Char)
  | _, [] => [[]]
  | 0, l => [l]
  | fuel + 1, c :: cs =>
    if sep ≠ [] ∧ sep.isPrefixOf (c :: cs) then
      [] :: pySplitFuel sep fuel (List.drop sep.length (c :: cs))
    else
      match pySplitFuel sep fuel cs with
      | [] => [[c]]
      | h :: t => (c :: h) :: t

/-- Python's `s.split(sep)` (non-empty `sep`). -/
def pySplit (s sep : String) : List String :=
  (pySplitFuel sep.data s.data.length s.data).map fun l => ⟨l⟩

/-- Value of a list of ASCII decimal digits. -/
def natOfDigits (l : List Char) : Nat :=
  l.foldl (fun acc c => acc * 10 + (c.toNat - '0'.toNat)) 0

/-- Digit run of a CPython `int()` literal after the optional sign:
digits optionally separated by single underscores (e.g. `1_0`). -/
def pyIntDigitsAux (n : Nat) : List Char → Option Nat
  | [] => some n
  | '_' :: c :: rest =>
    if c.isDigit then pyIntDigitsAux (n * 10 + (c.toNat - '0'.toNat)) rest else none
  | ['_'] => none
  | c :: rest =>
    if c.isDigit then pyIntDigitsAux (n * 10 + (c.toNat - '0'.toNat)) rest else none

/-- Parse a non-empty unsigned digit run as CPython `int()` does. -/
def pyIntDigits : List Char → Option Nat
  | c :: rest => if c.isDigit then pyIntDigitsAux (c.toNat - '0'.toNat) rest else none
  | [] => none

/-- CPython `int(s)`: surrounding whitespace stripped, optional sign,
ASCII decimal digits with optional single underscores between digits;
`none` models the `ValueError` path. -/
def pyIntOfString (s : String) : Option Int :=
  match pyStripL s.data with
  | '+' :: rest => (pyIntDigits rest).map Int.ofNat
  | '-' :: rest => (pyIntDigits rest).map fun n => -(n : Int)
  | l => (pyIntDigits l).map Int.ofNat

/-- One day of `timedelta(days=1)` in epoch-milliseconds. -/
def dayMs : Int := 86400000

/-! ## reminder_service.py — `calculate_next_reminder` -/

/-- `start_days` extraction in `calculate_next_reminder`: defaults to 3,
and when the profile contains `-`, `int(profile.split("-")[1])` replaces
it unless that raises (`except: pass`). -/
def spacedStartDays (profile : String) : Int :=
  if strContains profile "-" then
    match pyIntOfString ((pySplit profile "-").getD 1 "") with
    | some n => n
    | none => 3
  else 3

/-- The `days` selection of the `spaced` family in
`calculate_next_reminder` (default 90, stepped table for starting offsets
3, 5, 7). -/
def spacedDays (startDays : Int) (reminderCount : Nat) : Int :=
  if reminderCount = 0 then startDays
  else if startDays = 3 then
    (if reminderCount = 1 then 5 else if reminderCount = 2 then 7 else 90)
  else if startDays = 5 then
    (if reminderCount = 1 then 7 else if reminderCount = 2 then 14 else 90)
  else if startDays = 7 then
    (if reminderCount = 1 then 14 else if reminderCount = 2 then 30 else 90)
  else 90

/-- The `smart` profile interval table `{0: 1, 1: 7, 2: 30}.get(count, 90)`
(days). -/
def smartDays (reminderCount : Nat) : Int :=
  if reminderCount = 0 then 1
  else if reminderCount = 1 then 7
  else if reminderCount = 2 then 30
  else 90

/-- Day offset computed by `calculate_next_reminder` before it is added to
`now`. -/
def calculateNextReminderDays (reminderCount : Nat) (profile : String) : Int :=
  if pyStartsWith profile "spaced" then
    spacedDays (spacedStartDays profile) reminderCount
  else smartDays reminderCount

/-- `calculate_next_reminder(reminder_count, profile)` with the current
time passed explicitly (epoch-ms): returns `now + timedelta(days=days)`. -/
def calculateNextReminder (nowMs : Int) (reminderCount : Nat) (profile : String) : Int :=
  nowMs + calculateNextReminderDays reminderCount profile * dayMs

/-! ## reminder_service.py — `handle_reminder_intent` -/

/-- Length of the match of `https?://[^\s]+` anchored at the head of `l`
(`none` when the regex does not match here). -/
def urlMatchLen (l : List Char) : Option Nat :=
  if ("https://".data).isPrefixOf l then
    let run := (l.drop 8).takeWhile fun c => !pyIsSpace c
    if run.isEmpty then none else some (8 + run.length)
  else if ("http://".data).isPrefixOf l then
    let run := (l.drop 7).takeWhile fun c => !pyIsSpace c
    if run.isEmpty then none else some (7 + run.length)
  else none

/-- `re.sub(r'https?://[^\s]+', '', text)`: left-to-right scan removing
non-overlapping URL matches.  Fuel-driven (fuel = list length) so the
kernel can evaluate it; each match consumes at least one character. -/
def stripUrlsFuel : Nat → List Char → List Char
  | _, [] => []
  | 0, l => l
  | fuel + 1, c :: cs =>
    match urlMatchLen (c :: cs) with
    | some k => stripUrlsFuel fuel (List.drop k (c :: cs))
    | none => c :: stripUrlsFuel fuel cs

/-- URL stripping on strings. -/
def stripUrls (s : String) : String := ⟨stripUrlsFuel s.data.length s.data⟩

/-- Word characters for the `\b` boundary in `\bin (\d+) days?` (ASCII
alphanumerics and underscore, plus the Hebrew block the texts use, which
`re`'s Unicode `\w` also counts). -/
def isWordCharPy (c : Char) : Bool :=
  c.isAlphanum || c = '_' || (0x5B0 ≤ c.toNat && c.toNat ≤ 0x5EA)

/-- Match of `in (\d+) days?` anchored at the head of the list, returning
the captured number (the trailing `s` is optional and never blocks the
match). -/
def matchInDaysAt : List Char → Option Nat
  | 'i' :: 'n' :: ' ' :: rest =>
    let ds := rest.takeWhile Char.isDigit
    if ds.isEmpty then none
    else
      match rest.dropWhile Char.isDigit with
      | ' ' :: 'd' :: 'a' :: 'y' :: _ => some (natOfDigits ds)
      | _ => none
  | _ => none

/-- `re.search(r'\bin (\d+) days?', text)`: leftmost match with a word
boundary before `in`. -/
def findInDaysAux (prevIsWord : Bool) : List Char → Option Nat
  | [] => none
  | c :: cs =>
    match (if prevIsWord then none else matchInDaysAt (c :: cs)) with
    | some n => some n
    | none => findInDaysAux (isWordCharPy c) cs

def findInDays (l : List Char) : Option Nat := findInDaysAux false l

/-- Drop a literal prefix, or fail. -/
def dropLit (pre l : List Char) : Option (List Char) :=
  if pre.isPrefixOf l then some (l.drop pre.length) else none

/-- Match of `(?:בעוד|עוד)\s+(\d+)\s+ימים` anchored at the head of the
list. -/
def matchHebDaysAt (l : List Char) : Option Nat :=
  match (dropLit "בעוד".data l).orElse (fun _ => dropLit "עוד".data l) with
  | none => none
  | some r1 =>
    let sp1 := r1.takeWhile pyIsSpace
    if sp1.isEmpty then none
    else
      let r2 := r1.dropWhile pyIsSpace
      let ds := r2.takeWhile Char.isDigit
      if ds.isEmpty then none
      else
        let r3 := r2.dropWhile Char.isDigit
        let sp2 := r3.takeWhile pyIsSpace
        if sp2.isEmpty then none
        else
          match dropLit "ימים".data (r3.dropWhile pyIsSpace) with
          | some _ => some (natOfDigits ds)
          | none => none

/-- `re.search` for the Hebrew "in N days" pattern (no boundary in the
source regex). -/
def findHebDays : List Char → Option Nat
  | [] => none
  | c :: cs =>
    match matchHebDaysAt (c :: cs) with
    | some n => some n
    | none => findHebDays cs

/-- The normalisation at the top of `handle_reminder_intent`:
`re.sub(r'https?://[^\s]+', '', text).lower().strip()`. -/
def normalizeReminderText (text : String) : String :=
  pyStrip (pyLower (stripUrls text))

/-- Branch cascade of `handle_reminder_intent` on the normalised text,
returning the day offset of the reminder (`none` = no pattern matched). -/
def reminderDaysOfNormalized (t : String) : Option Nat :=
  if strContains t "tomorrow" then some 1
  else if strContains t "next week" then some 7
  else
    match findInDays t.data with
    | some n => some n
    | none =>
      if strContains t "מחר" then some 1
      else if strContains t "שבוע הבא" then some 7
      else
        match findHebDays t.data with
        | some n => some n
        | none =>
          let stripped := pyStrip t
          if stripped = "1" then some 1
          else if stripped = "2" then some 3
          else if stripped = "3" then some 7
          else none

/-- Day offset produced by `handle_reminder_intent(text)`. -/
def handleReminderIntentDays (text : String) : Option Nat :=
  reminderDaysOfNormalized (normalizeReminderText text)

/-- `handle_reminder_intent(text)` with the current time explicit:
`now + timedelta(days=d)` when a pattern matched, else `None`. -/
def handleReminderIntent (nowMs : Int) (text : String) : Option Int :=
  (handleReminderIntentDays text).map fun d => nowMs + (d : Int) * dayMs

/-- Disjunction of every branch condition in the cascade of
`handle_reminder_intent`, on the normalised text. -/
def reminderAnyPattern (t : String) : Bool :=
  strContains t "tomorrow" || strContains t "next week" || (findInDays t.data).isSome ||
  strContains t "מחר" || strContains t "שבוע הבא" || (findHebDays t.data).isSome ||
  (pyStrip t = "1") || (pyStrip t = "2") || (pyStrip t = "3")

/-! ## reminder_service.py — `run_reminder_check`

The document store and the outbound WhatsApp transport are oracles:
`sendErr phone linkId` is `none` when `send_whatsapp_message` returns and
`some e` when it raises with message `e`; `queryErr uid` likewise models
the `try` around the due-links query.  Only the reminder state machine
fields are modelled on a link document — `title`, `url` and `category`
feed exclusively into the notification text, which is consumed by the
transport oracle. -/

/-- Value of the `nextReminderAt` field: integer epoch-ms, a legacy native
Timestamp object (carried as the epoch-ms it converts to), or null/absent. -/
inductive NRValue where
  | ms (v : Int)
  | ts (v : Int)
  | null
  deriving DecidableEq, Repr

structure LinkDoc where
  id : String
  reminderStatus : String
  nextReminderAt : NRValue
  reminderCount : Nat
  /-- `link_data.get('reminderProfile', 'smart')` (`none` = key absent) -/
  reminderProfile : Option String
  deriving DecidableEq, Repr

/-- Data-cleanup pass: a pending document whose `nextReminderAt` has a
`.timestamp` attribute is rewritten to integer epoch-ms. -/
def cleanupLink (l : LinkDoc) : LinkDoc :=
  if l.reminderStatus = "pending" then
    match l.nextReminderAt with
    | .ts v => { l with nextReminderAt := .ms v }
    | _ => l
  else l

/-- The due query `reminderStatus == 'pending' AND nextReminderAt <= now`:
the integer range filter matches only integer values. -/
def isDue (nowMs : Int) (l : LinkDoc) : Bool :=
  l.reminderStatus = "pending" &&
    match l.nextReminderAt with
    | .ms v => v ≤ nowMs
    | _ => false

/-- Body of the due-links loop for one link: attempt the send; on success
advance the spaced-repetition state (completed at count ≥ 3, else a new
integer epoch-ms due time); on an exception record the error and leave the
document untouched.  Returns (new document state, recorded error, sent
increment). -/
def processDueLink (nowMs : Int) (sendErr : String → String → Option String)
    (phone : String) (l : LinkDoc) : LinkDoc × Option String × Nat :=
  match sendErr phone l.id with
  | some e => (l, some ("Failed to send reminder for link " ++ l.id ++ ": " ++ e), 0)
  | none =>
    let newCount := l.reminderCount + 1
    let profile := l.reminderProfile.getD "smart"
    let nextMs := calculateNextReminder nowMs newCount profile
    if newCount ≥ 3 then
      ({ l with reminderStatus := "completed", reminderCount := newCount,
                nextReminderAt := .null }, none, 1)
    else
      ({ l with reminderCount := newCount, nextReminderAt := .ms nextMs }, none, 1)

/-- The `for link_doc in due_links` loop: each iteration is independent;
errors and sent counts accumulate in order. -/
def runDueLoop (nowMs : Int) (sendErr : String → String → Option String)
    (phone : String) : List LinkDoc → List LinkDoc × List String × Nat
  | [] => ([], [], 0)
  | l :: rest =>
    let r := processDueLink nowMs sendErr phone l
    let rec' := runDueLoop nowMs sendErr phone rest
    (r.1 :: rec'.1, r.2.1.toList ++ rec'.2.1, r.2.2 + rec'.2.2)

/-- Per-user link handling of `run_reminder_check` once the user passed
the enabled/phone guards: cleanup pass, due query capped at 10, then the
send loop; returns (stored link states, errors, found, sent). -/
def sweepUserLinks (nowMs : Int) (sendErr : String → String → Option String)
    (phone : String) (links : List LinkDoc) :
    List LinkDoc × List String × Nat × Nat :=
  let cleaned := links.map cleanupLink
  let due := (cleaned.filter (isDue nowMs)).take 10
  let loop := runDueLoop nowMs sendErr phone due
  let final := cleaned.map fun l =>
    if l ∈ due then (processDueLink nowMs sendErr phone l).1 else l
  (final, loop.2.1, due.length, loop.2.2)

structure UserDoc where
  uid : String
  /-- `settings.get('reminders_enabled', settings.get('remindersEnabled', True))` -/
  remindersEnabled : Bool
  /-- `user_data.get('phone_number') or user_data.get('phoneNumber')` -/
  phone : Option String
  links : List LinkDoc
  deriving Repr

structure SweepReport where
  usersChecked : Nat
  usersWithRemindersEnabled : Nat
  remindersFound : Nat
  remindersSent : Nat
  errors : List String
  deriving DecidableEq, Repr

/-- `run_reminder_check()`: iterate all users; disabled or phone-less
users are skipped (their links untouched); a failing due query records an
error and continues; otherwise sweep the user.  Returns the report and the
final link state of every user. -/
def runReminderCheck (nowMs : Int) (sendErr : String → String → Option String)
    (queryErr : String → Option String) : List UserDoc → SweepReport × List (String × List LinkDoc)
  | [] => (⟨0, 0, 0, 0, []⟩, [])
  | u :: rest =>
    let tail := runReminderCheck nowMs sendErr queryErr rest
    let rep := tail.1
    if !u.remindersEnabled then
      ({ rep with usersChecked := rep.usersChecked + 1 }, (u.uid, u.links) :: tail.2)
    else
      match u.phone with
      | none =>
        ({ rep with usersChecked := rep.usersChecked + 1,
                    usersWithRemindersEnabled := rep.usersWithRemindersEnabled + 1 },
         (u.uid, u.links) :: tail.2)
      | some phone =>
        let cleaned := u.links.map cleanupLink
        match queryErr u.uid with
        | some e =>
          ({ rep with usersChecked := rep.usersChecked + 1,
                      usersWithRemindersEnabled := rep.usersWithRemindersEnabled + 1,
                      errors := ("Failed to query reminders for user " ++ phone ++ ": " ++ e)
                        :: rep.errors },
           (u.uid, cleaned) :: tail.2)
        | none =>
          let r := sweepUserLinks nowMs sendErr phone u.links
          ({ rep with usersChecked := rep.usersChecked + 1,
                      usersWithRemindersEnabled := rep.usersWithRemindersEnabled + 1,
                      remindersFound := rep.remindersFound + r.2.2.1,
                      remindersSent := rep.remindersSent + r.2.2.2,
                      errors := r.2.1 ++ rep.errors },
           (u.uid, r.1) :: tail.2)

/-! ## graph_service.py — `GraphService.find_related_links`

The Firestore nearest-neighbour query and the Gemini verification call
are oracles; `.error` on the query models a raised exception (caught by
the catch-all, which returns `[]`), `.error` on the LLM response models a
response shape whose iteration raises (same catch-all; a failed LLM call
already returns `[]` from `_verify_relationships_with_llm`). -/

structure CandidateDoc where
  id : String
  title : Option String
  summary : Option String
  concepts : List String
  deriving DecidableEq, Repr

structure LlmRelation where
  id : Option String
  reason : Option String
  similarity : Option ℚ
  commonConcepts : Option (List String)
  deriving DecidableEq, Repr

structure RelatedOut where
  id : String
  title : Option String
  reason : Option String
  similarity : ℚ
  commonConcepts : List String
  deriving DecidableEq, Repr

/-- Lookup in `valid_candidates_map`: the dict is filled in list order, so
a duplicated id resolves to the last candidate carrying it. -/
def lookupLastCand (cands : List CandidateDoc) (tid : String) : Option CandidateDoc :=
  cands.reverse.find? fun c => c.id = tid

/-- The self-exclusion filter `doc.id != new_link_id`. -/
def candKeep (newLinkId : String) (d : CandidateDoc) : Bool := d.id ≠ newLinkId

/-- Body of the result loop for one relation returned by the LLM: dropped
unless its id is a key of `valid_candidates_map`. -/
def relFormat (cands : List CandidateDoc) (rel : LlmRelation) : Option RelatedOut :=
  match rel.id with
  | none => none
  | some tid =>
    match lookupLastCand cands tid with
    | none => none
    | some c =>
      some { id := tid, title := c.title, reason := rel.reason,
             similarity := rel.similarity.getD (4 / 5 : ℚ),
             commonConcepts := rel.commonConcepts.getD [] }

def findRelatedLinks (newLinkId : String)
    (vectorQuery : Except Unit (List CandidateDoc))
    (llmResponse : Except Unit (List LlmRelation)) : List RelatedOut :=
  match vectorQuery with
  | .error _ => []
  | .ok docs =>
    let cands := docs.filter (candKeep newLinkId)
    if cands.isEmpty then []
    else
      match llmResponse with
      | .error _ => []
      | .ok rels => rels.filterMap (relFormat cands)

/-! ## ai_service.py — `ClaudeService.analyze_text` and the validation
block of `process_link_background` -/

/-- A JSON object as the pipeline reads it: the keys accessed downstream,
each possibly absent. -/
structure AnalysisDict where
  title : Option String := none
  summary : Option String := none
  detailedSummary : Option String := none
  category : Option String := none
  tags : Option (List String) := none
  concepts : Option (List String) := none
  sourceName : Option String := none
  language : Option String := none
  actionableTakeaway : Option String := none
  deriving DecidableEq, Repr

/-- Value produced by `json.loads(response.text)`. -/
inductive PyVal where
  | pdict (d : AnalysisDict)
  | plist (l : List PyVal)
  | pstr (s : String)
  | pnone

/-- `_mock_analysis`: the deterministic fallback annotation. -/
def mockAnalysis : PyVal :=
  .pdict { title := some "Untitled (Analysis Failed)",
           summary := some "Processing of this link failed or Gemini API was unavailable. Please check original.",
           category := some "General",
           tags := some ["failed"],
           actionableTakeaway := some "None" }

/-- Outcome of the Gemini call inside `analyze_text`: the call raised, the
response was empty (which raises inside the `try`), or `response.text`
was parsed by `json.loads` (`none` = invalid JSON, which also raises
inside the `try`). -/
inductive ModelResp where
  | callFailed
  | emptyResponse
  | text (parsed : Option PyVal)

/-- `ClaudeService.analyze_text`: the mock annotation when the client is
missing or anything inside the `try` raises; otherwise the parsed JSON
value is returned unchanged, whatever its shape. -/
def analyzeText (hasClient : Bool) (resp : ModelResp) : PyVal :=
  if !hasClient then mockAnalysis
  else
    match resp with
    | .callFailed => mockAnalysis
    | .emptyResponse => mockAnalysis
    | .text none => mockAnalysis
    | .text (some v) => v

/-- The VALIDATION block of `process_link_background`: a dict passes; a
non-empty list is unwrapped to its first element; anything still not a
dict raises `ValueError`. -/
def validateAnalysis : PyVal → Except String AnalysisDict
  | .pdict d => .ok d
  | .plist (PyVal.pdict d :: _) => .ok d
  | _ => .error "AI Analysis failed to return a valid object"

/-! ## scraper.py

Network responses and the BeautifulSoup / embedded-JSON parsing layers
are oracles; every branch keeps the control flow (including `try` /
`except` placement) of the source. -/

/-- The `{'html': .., 'title': .., 'text': ..}` dict every scraper branch
returns (YouTube adds extra metadata keys that no claim reads). -/
structure Scraped where
  html : String
  title : String
  text : String
  deriving DecidableEq, Repr

/-- Outcome of a `requests.get`: the call (or reading `.json()`) raised,
the response was not ok, or it succeeded with the payload the branch
reads. -/
inductive FetchRes (α : Type) where
  | err
  | notOk
  | ok (a : α)
  deriving DecidableEq, Repr

/-- `media` object of an fxtwitter tweet: photo count (`0` models a
missing or empty list, which is falsy) and truthiness of `videos`. -/
structure FxMedia where
  photos : Nat
  videos : Bool
  deriving DecidableEq, Repr

structure FxQuote where
  authorName : Option String
  screenName : Option String
  text : Option String
  deriving DecidableEq, Repr

/-- `data['tweet']` of the fxtwitter API; `quote`/`media` are `some` only
for truthy values. -/
structure FxTweet where
  text : Option String
  quote : Option FxQuote
  media : Option FxMedia
  authorName : Option String
  authorScreenName : Option String
  createdAt : Option String
  likes : Option Int
  retweets : Option Int
  deriving DecidableEq, Repr

/-- Truthiness of `tweet.get('text')`. -/
def fxHasText (t : FxTweet) : Bool :=
  match t.text with
  | some s => s ≠ ""
  | none => false

/-- `has_text or has_quote or has_media` for the fxtwitter early return. -/
def fxTweetHasContent (t : FxTweet) : Bool :=
  fxHasText t || t.quote.isSome || t.media.isSome

/-- Python rendering of an optional string in an f-string (`None` prints
as `None`). -/
def pyShowOptStr (o : Option String) : String := o.getD "None"

def pyShowOptInt (o : Option Int) : String :=
  match o with
  | some n => toString n
  | none => "None"

/-- `_format_twitter_data(tweet, source)`. -/
def formatTwitterData (tweet : FxTweet) (source : String) : Scraped :=
  let parts : List String :=
    (if fxHasText tweet then [tweet.text.getD ""] else []) ++
    (match tweet.quote with
     | some q =>
       ["\n[Replying to/Quoting " ++ q.authorName.getD "Unknown" ++ " (@" ++
        q.screenName.getD "unknown" ++ ")]:\n\"" ++ q.text.getD "" ++ "\""]
     | none => []) ++
    (match tweet.media with
     | some m =>
       (if m.photos ≠ 0 then ["\n[Contains " ++ toString m.photos ++ " Image(s)]"] else []) ++
       (if m.videos then ["\n[Contains Video]"] else [])
     | none => [])
  let joined := String.intercalate "\n\n" parts
  let finalContent :=
    if joined = "" then "[Media-only tweet or no text content available]" else joined
  let authorName := tweet.authorName.getD "Unknown"
  let formatted :=
    "\nTWEET CONTENT:\n\"" ++ finalContent ++ "\"\n\n---\nMETADATA:\nAuthor: " ++
    authorName ++ " (@" ++ tweet.authorScreenName.getD "" ++ ")\nDate: " ++
    tweet.createdAt.getD "" ++ "\nEngagement: " ++ toString (tweet.likes.getD 0) ++
    " likes, " ++ toString (tweet.retweets.getD 0) ++ " retweets\nSource: " ++
    source ++ " API\n"
  let title := "Tweet by " ++ authorName ++ ": " ++ ((finalContent.take 100).replace "\n" " ")
  ⟨formatted, title, formatted⟩

/-- JSON payload of the vxtwitter API; media fields carry list lengths. -/
structure VxData where
  mediaURLs : Nat
  mediaExtended : Nat
  text : Option String
  userName : Option String
  userScreenName : Option String
  date : Option String
  likes : Option Int
  retweets : Option Int
  deriving DecidableEq, Repr

/-- `bool(data.get('mediaURLs') or data.get('media_extended'))`. -/
def vxHasMedia (d : VxData) : Bool := d.mediaURLs ≠ 0 || d.mediaExtended ≠ 0

/-- `_format_vxtwitter_data(data)`. -/
def formatVxData (d : VxData) : Scraped :=
  let parts : List String :=
    (match d.text with
     | some s => if s ≠ "" then [s] else []
     | none => []) ++
    (if vxHasMedia d then
       ["\n[Contains " ++ toString (max d.mediaURLs d.mediaExtended) ++ " Media Item(s)]"]
     else [])
  let joined := String.intercalate "\n\n" parts
  let finalContent := if joined = "" then "[Media-only tweet]" else joined
  let formatted :=
    "\nTWEET CONTENT:\n\"" ++ finalContent ++ "\"\n\n---\nMETADATA:\nAuthor: " ++
    pyShowOptStr d.userName ++ " (@" ++ pyShowOptStr d.userScreenName ++ ")\nDate: " ++
    pyShowOptStr d.date ++ "\nEngagement: " ++ pyShowOptInt d.likes ++ " likes, " ++
    pyShowOptInt d.retweets ++ " retweets\nSource: vxtwitter API\n"
  ⟨formatted,
   "Tweet by " ++ pyShowOptStr d.userName ++ ": " ++ ((finalContent.take 100).replace "\n" " "),
   formatted⟩

/-- Match of `PRE([^"]+)"` anchored at the head of `l`: the literal
prefix, then at least one non-quote character up to a closing quote. -/
def matchCaptureAt (pre l : List Char) : Option (List Char) :=
  match dropLit pre l with
  | none => none
  | some rest =>
    let cap := rest.takeWhile fun c => c ≠ '"'
    if cap.isEmpty then none
    else
      match rest.dropWhile fun c => c ≠ '"' with
      | '"' :: _ => some cap
      | _ => none

/-- `re.search` for the Open Graph meta-tag patterns: leftmost position
where the capture succeeds. -/
def searchCapture (pre : List Char) : List Char → Option (List Char)
  | [] => none
  | c :: cs =>
    match matchCaptureAt pre (c :: cs) with
    | some cap => some cap
    | none => searchCapture pre cs

/-- `_scrape_twitter_metadata(url)` over the fetched page. -/
def scrapeTwitterMetadata (metaFetch : FetchRes String) : Scraped :=
  match metaFetch with
  | .err => ⟨"", "", ""⟩
  | .notOk => ⟨"", "", ""⟩
  | .ok html =>
    let title :=
      ((searchCapture ("<meta property=\"og:title\" content=\"").data html.data).map
        fun l => (⟨l⟩ : String)).getD ""
    let desc :=
      ((searchCapture ("<meta property=\"og:description\" content=\"").data html.data).map
        fun l => (⟨l⟩ : String)).getD ""
    if title = "" ∧ desc = "" then ⟨"", "", ""⟩
    else
      let formatted :=
        "\nTWEET/ARTICLE METADATA:\nTitle: " ++ title ++ "\nDescription: " ++ desc ++
        "\n\n(Full content not available via API, analyzed based on preview metadata)\n"
      ⟨formatted, if title = "" then "Twitter Article" else title, formatted⟩

/-- `_scrape_twitter_url(url)`: fxtwitter, then vxtwitter (thin results
kept aside), then the direct metadata scrape, then the thin result, then
empty. -/
def scrapeTwitterUrl (fx : FetchRes (Option FxTweet)) (vx : FetchRes VxData)
    (metaFetch : FetchRes String) : Scraped :=
  let fxResult : Option Scraped :=
    match fx with
    | .ok (some tweet) =>
      if fxTweetHasContent tweet then some (formatTwitterData tweet "fxtwitter") else none
    | _ => none
  match fxResult with
  | some r => r
  | none =>
    let vxStep : Option Scraped × Option Scraped :=
      match vx with
      | .ok d =>
        if vxHasMedia d || (d.text.getD "").length > 100 then (some (formatVxData d), none)
        else (none, some (formatVxData d))
      | _ => (none, none)
    match vxStep.1 with
    | some r => r
    | none =>
      let scrapeResult := scrapeTwitterMetadata metaFetch
      if scrapeResult.title ≠ "" ∨ scrapeResult.text ≠ "" then scrapeResult
      else
        match vxStep.2 with
        | some r => r
        | none => ⟨"", "", ""⟩

/-- Meta-tag fields the BeautifulSoup loops extract from an Instagram
page (direct or bridge): the chosen title and description contents. -/
structure InstaMeta where
  title : Option String
  desc : Option String
  deriving DecidableEq, Repr

def genericInstaTitles : List String :=
  ["Instagram Post", "Instagram", "Open in App", "Login • Instagram",
   "Instagram Video", "Instagram Reel"]

/-- Accumulator of `_scrape_instagram_url`: `best_title`, `best_desc`,
`metadata_lines`. -/
structure InstaAcc where
  bestTitle : String
  bestDesc : String
  lines : List String
  deriving DecidableEq, Repr

/-- Step 1 of `_scrape_instagram_url`: the direct scrape. -/
def instaDirectStep (direct : FetchRes InstaMeta) : InstaAcc :=
  let acc0 : InstaAcc := ⟨"Instagram Post", "", []⟩
  match direct with
  | .ok m =>
    let dTitle :=
      match m.title with
      | some t => pyStrip ((pySplit t "|").getD 0 "")
      | none => ""
    let dDesc := m.desc.getD ""
    let acc1 :=
      if dTitle ≠ "" ∧ dTitle ∉ genericInstaTitles then { acc0 with bestTitle := dTitle }
      else acc0
    if dDesc ≠ "" ∧ dDesc.length > 20 then
      { acc1 with bestDesc := dDesc, lines := acc1.lines ++ ["CONTENT DESCRIPTION:\n" ++ dDesc] }
    else acc1
  | _ => acc0

/-- Step 2 of `_scrape_instagram_url`: the bridge loop with its blocklist
check and the early break once `best_desc` exceeds 200 characters. -/
def instaBridgeStep (bridgeRes : String → FetchRes InstaMeta) :
    List String → InstaAcc → InstaAcc
  | [], acc => acc
  | b :: rest, acc =>
    match bridgeRes b with
    | .ok m =>
      let bTitle :=
        match m.title with
        | some t => pyStrip ((pySplit t "|").getD 0 "")
        | none => ""
      let bDesc := m.desc.getD ""
      if strContains bTitle "AliExpress" || strContains bDesc "AliExpress" ||
         strContains bTitle "Open in App" then
        instaBridgeStep bridgeRes rest acc
      else if bDesc ≠ "" ∧ bDesc.length > acc.bestDesc.length then
        let acc1 := { acc with bestDesc := bDesc,
                               lines := acc.lines ++ ["SECONDARY SOURCE DESCRIPTION:\n" ++ bDesc] }
        let acc2 :=
          if bTitle ≠ "" ∧ bTitle ∉ genericInstaTitles then { acc1 with bestTitle := bTitle }
          else acc1
        if acc2.bestDesc.length > 200 then acc2 else instaBridgeStep bridgeRes rest acc2
      else instaBridgeStep bridgeRes rest acc
    | _ => instaBridgeStep bridgeRes rest acc

/-- `str.strip(chr(34))`: strip double quotes from both ends. -/
def pyStripQuote (s : String) : String :=
  ⟨((s.data.dropWhile fun c => c = '"').reverse.dropWhile fun c => c = '"').reverse⟩

/-- Step 3 of `_scrape_instagram_url`: fold the caption of the original
inbound message in. -/
def instaCaptionStep (url : String) (body : Option String) (acc : InstaAcc) : InstaAcc :=
  match body with
  | none => acc
  | some b =>
    if b ≠ "" ∧ strContains b url then
      let cap0 := pyStrip (b.replace url "")
      let noise := ["Check out this reel!", "Watch this reel by", "Instagram post by",
                    "See this post on Instagram", "Watch this video on Instagram"]
      let cap := noise.foldl (fun c n => pyStrip (c.replace n "")) cap0
      if cap ≠ "" ∧ cap.length > 5 then
        let acc1 := { acc with lines := acc.lines ++ ["WHATSAPP SHARED CAPTION:\n" ++ cap] }
        let acc2 :=
          if cap.length > acc1.bestDesc.length then { acc1 with bestDesc := cap } else acc1
        if acc2.bestTitle ∈ genericInstaTitles then
          { acc2 with bestTitle := (pySplit (cap.take 100) "\n").getD 0 "" }
        else acc2
      else acc
    else acc

/-- `_scrape_instagram_url(url, message_body)`. -/
def scrapeInstagramUrl (direct : FetchRes InstaMeta)
    (bridgeRes : String → FetchRes InstaMeta) (url : String) (body : Option String) : Scraped :=
  let a1 := instaDirectStep direct
  let a2 :=
    if a1.bestDesc.length < 100 then
      instaBridgeStep bridgeRes ["instagramez.com", "kkinstagram.com", "ddinstagram.com"] a1
    else a1
  let acc := instaCaptionStep url body a2
  if acc.lines.isEmpty ∧ acc.bestDesc = "" then
    ⟨"", "Instagram Link", "Instagram content (metadata extraction failed)"⟩
  else
    let finalTitle :=
      if acc.bestTitle ∈ genericInstaTitles ∧ acc.bestDesc ≠ "" then
        if strContains acc.bestDesc " - " ∧ strContains acc.bestDesc " on Instagram: " then
          let parts := pySplit acc.bestDesc " on Instagram: "
          if parts.length > 1 then
            pyStripQuote ((pySplit ((parts.getD 1 "").take 100) "\n").getD 0 "")
          else (pySplit (acc.bestDesc.take 100) "\n").getD 0 ""
        else (pySplit (acc.bestDesc.take 100) "\n").getD 0 ""
      else acc.bestTitle
    let finalText := String.intercalate "\n\n---\n\n" acc.lines
    ⟨finalText, finalTitle, finalText⟩

/-- Video-id extraction of `_scrape_youtube_url` (`""` models both the
`None` and empty-string falsy cases feeding `if not video_id`). -/
def extractVideoId (url : String) : String :=
  if strContains url "youtu.be" then
    (pySplit ((pySplit url "/").getLastD "") "?").getD 0 ""
  else if strContains url "/shorts/" then
    (pySplit ((pySplit ((pySplit url "/shorts/").getD 1 "") "?").getD 0 "") "/").getD 0 ""
  else if strContains url "v=" then
    (pySplit ((pySplit url "v=").getD 1 "") "&").getD 0 ""
  else ""

/-- `_scrape_youtube_url(url)`: the metadata/transcript phases (A–D) over
the fetched page are library-driven and enter as the `ytParse` oracle
(`.error` = an exception reaching the outer handler). -/
def scrapeYoutubeUrl (ytPage : Except Unit String)
    (ytParse : String → String → Except Unit Scraped) (url : String) : Scraped :=
  let vid := extractVideoId url
  if vid = "" then ⟨"", "YouTube Video", ""⟩
  else
    match ytPage with
    | .error _ => ⟨"", "YouTube Video", ""⟩
    | .ok html =>
      match ytParse vid html with
      | .ok r => r
      | .error _ => ⟨"", "YouTube Video", ""⟩

/-- What BeautifulSoup extracts for the generic branch: `soup.title`
(outer `none` = no title tag; inner `none` = `.string` is `None`, making
`.strip()` raise), paragraph texts, `<article>` text. -/
structure SoupRes where
  titleTag : Option (Option String)
  paragraphs : List String
  article : Option String

/-- Generic branch of `scrape_url` before the top-level catch-all
(`.error` = an exception escaped to that handler). -/
def scrapeGeneralE (genFetch : FetchRes String) (soup : String → SoupRes) :
    Except Unit Scraped :=
  match genFetch with
  | .err => .error ()
  | .notOk => .error ()
  | .ok html =>
    let sp := soup html
    match sp.titleTag with
    | some none => .error ()
    | tt =>
      let title :=
        match tt with
        | some (some s) => pyStrip s
        | _ => ""
      let parts := sp.paragraphs.map pyStrip ++
        (match sp.article with
         | some a => [pyStrip a]
         | none => [])
      let text := (String.intercalate " " parts).take 5000
      .ok ⟨html, title, if text = "" then html.take 5000 else text⟩

/-- All the external services `scrape_url` touches. -/
structure ScrapeEnv where
  fx : FetchRes (Option FxTweet)
  vx : FetchRes VxData
  metaFetch : FetchRes String
  instaDirect : FetchRes InstaMeta
  instaBridge : String → FetchRes InstaMeta
  ytPage : Except Unit String
  ytParse : String → String → Except Unit Scraped
  genFetch : FetchRes String
  soup : String → SoupRes

/-- `scrape_url(url, message_body)`: dispatch on the URL, with the
top-level catch-all turning any escaped exception into the all-empty
dict.  The function is total: no branch can raise. -/
def scrapeUrl (env : ScrapeEnv) (url : String) (body : Option String) : Scraped :=
  if strContains url "twitter.com" || strContains url "x.com" then
    scrapeTwitterUrl env.fx env.vx env.metaFetch
  else if strContains url "instagram.com" then
    scrapeInstagramUrl env.instaDirect env.instaBridge url body
  else if strContains url "youtube.com" || strContains url "youtu.be" then
    scrapeYoutubeUrl env.ytPage env.ytParse url
  else
    match scrapeGeneralE env.genFetch env.soup with
    | .ok r => r
    | .error _ => ⟨"", "", ""⟩

/-- A world where every network request fails: total extraction failure. -/
def failEnv : ScrapeEnv :=
  ⟨.err, .err, .err, .err, fun _ => .err, .error (), fun _ _ => .error (), .err,
   fun _ => ⟨none, [], none⟩⟩

/-- Does the fxtwitter stage yield no usable text, quote or media (the
condition under which `_scrape_twitter_url` falls through to vxtwitter)? -/
def fxYieldsNothing : FetchRes (Option FxTweet) → Bool
  | .ok (some t) => !fxTweetHasContent t
  | _ => true

/-- Is a JSON value an object? -/
def isPdict : PyVal → Bool
  | .pdict _ => true
  | _ => false

/-! ## main.py — `process_link_background`

The four pipeline stages after the inbound document is read — extraction,
AI analysis, embedding, graph-linking — enter as `Except`-valued oracles
so each can fail independently, exactly as the orchestrator's single
`try` / `except` sees them.  (In the deployed code `scrape_url` and
`analyze_text` catch internally and `find_related_links` returns `[]` on
error; the `.error` cases additionally cover the failure simulation the
specification demands, e.g. `claude.embed_text` raising.)  Firestore
writes and the outbound WhatsApp send are recorded in the outcome; the
claims treat them as non-failing. -/

/-- Firestore link document written by `process_link_background`; keys
absent from the degraded write are `none` / `[]`. -/
structure LinkRecord where
  url : String
  title : String
  summary : String
  detailedSummary : Option String := none
  tags : List String := []
  concepts : List String := []
  embedding : Option (List Int) := none
  relatedLinks : Option (List RelatedOut) := none
  category : String
  sourceName : Option String := none
  language : Option String := none
  status : String
  createdAt : Int
  originalTitle : String
  estimatedReadTime : Nat
  actionableTakeaway : Option String := none
  deriving DecidableEq, Repr

/-- The enriched `link_data` dict of the success path.  Lookup defaults
follow the source (`analysis.get("title", scraped.get("title",
"Untitled"))`: the scraped dict always carries a `title` key, so its
inner default is dead). -/
def enrichedRecord (nowMs : Int) (url : String) (scraped : Scraped) (d : AnalysisDict)
    (emb : List Int) (related : List RelatedOut) : LinkRecord :=
  { url := url,
    title := d.title.getD scraped.title,
    summary := d.summary.getD "No summary available",
    detailedSummary := d.detailedSummary,
    tags := d.tags.getD [],
    concepts := d.concepts.getD [],
    embedding := some emb,
    relatedLinks := some related,
    category := d.category.getD "General",
    sourceName := d.sourceName,
    language := some (d.language.getD "en"),
    status := "unread",
    createdAt := nowMs,
    originalTitle := scraped.title,
    estimatedReadTime := max 1 (scraped.text.length / 1500),
    actionableTakeaway := d.actionableTakeaway }

/-- The degraded `fallback_data` dict of the exception handler.  Its
title is `scraped.get("title", url)`: since every scrape result carries a
`title` key (possibly the empty string), the `url` default can never
fire and the stored title is always the scraped title. -/
def fallbackRecord (nowMs : Int) (url : String) (scraped : Scraped) (err : String) :
    LinkRecord :=
  { url := url,
    title := scraped.title,
    summary := "Cloud processing error: " ++ err,
    tags := ["Processing Failed"],
    category := "Uncategorized",
    status := "unread",
    createdAt := nowMs,
    originalTitle := scraped.title,
    estimatedReadTime := 0 }

/-- Observable effects of one `process_link_background` invocation. -/
structure ProcOutcome where
  /-- documents persisted by `save_link_to_firestore` -/
  records : List LinkRecord
  /-- calls to `send_whatsapp_message` -/
  replyAttempts : Nat
  /-- reminder set by `set_reminder` (due epoch-ms, profile) -/
  reminderSet : Option (Int × String)
  /-- was the pending work item deleted (success) or retained (failure)? -/
  pendingDeleted : Bool
  deriving Repr

/-- Effects of the exception handler: persist the degraded record, send
the warning reply, keep the pending document. -/
def fallbackOutcome (nowMs : Int) (url : String) (scraped : Scraped) (err : String) :
    ProcOutcome :=
  { records := [fallbackRecord nowMs url scraped err],
    replyAttempts := 1,
    reminderSet := none,
    pendingDeleted := false }

/-- `process_link_background`: scrape (the `scraped` variable starts as
the all-empty dict), analyse, validate, embed, graph-link, persist, check
the reminder intent, reply; any stage exception lands in the handler that
persists the degraded record and sends the warning reply. -/
def processLinkBackground (nowMs : Int) (url body : String)
    (scrapeStage : Except String Scraped)
    (analyzeStage : Except String PyVal)
    (embedStage : Except String (List Int))
    (graphStage : Except String (List RelatedOut)) : ProcOutcome :=
  match scrapeStage with
  | .error e => fallbackOutcome nowMs url ⟨"", "", ""⟩ e
  | .ok scraped =>
    match analyzeStage with
    | .error e => fallbackOutcome nowMs url scraped e
    | .ok raw =>
      match validateAnalysis raw with
      | .error e => fallbackOutcome nowMs url scraped e
      | .ok analysis =>
        match embedStage with
        | .error e => fallbackOutcome nowMs url scraped e
        | .ok emb =>
          match graphStage with
          | .error e => fallbackOutcome nowMs url scraped e
          | .ok related =>
            let record := enrichedRecord nowMs url scraped analysis emb related
            let reminderTime := handleReminderIntent nowMs body
            { records := [record],
              replyAttempts := 1,
              reminderSet := reminderTime.map fun t =>
                (t, if strContains body "2" then "spaced" else "smart"),
              pendingDeleted := true }

end MyLinks

/-! # Helper lemmas -/

namespace MyLinks

theorem runDueLoop_links (now : Int) (sendErr : String → String → Option String)
    (phone : String) (due : List LinkDoc) :
    (runDueLoop now sendErr phone due).1 =
      due.map fun x => (processDueLink now sendErr phone x).1 := by
  induction due with
  | nil => rfl
  | cons l rest ih => simp [runDueLoop, ih]

theorem runDueLoop_errors (now : Int) (sendErr : String → String → Option String)
    (phone : String) (due : List LinkDoc) :
    (runDueLoop now sendErr phone due).2.1 =
      due.filterMap fun x => (processDueLink now sendErr phone x).2.1 := by
  induction due with
  | nil => rfl
  | cons l rest ih =>
    cases h : (processDueLink now sendErr phone l).2.1 <;>
      simp [runDueLoop, h, ih, List.filterMap_cons]

theorem runReminderCheck_counts (now : Int) (sendErr : String → String → Option String)
    (qe : String → Option String) (users : List UserDoc) :
    ((runReminderCheck now sendErr qe users).1).usersChecked = users.length ∧
    ((runReminderCheck now sendErr qe users).2).length = users.length := by
  induction users with
  | nil => exact ⟨rfl, rfl⟩
  | cons u rest ih =>
    by_cases he : u.remindersEnabled <;> rcases hp : u.phone with _ | p <;>
      rcases hq : qe u.uid with _ | e <;>
        simp [runReminderCheck, he, hp, hq, ih.1, ih.2]

end MyLinks

/-! # Claim theorems -/

namespace MyLinks

/-- C2: for every repetition count, `calculate_next_reminder` returns now
plus exactly the tabulated day offset: smart — 1, 7, 30 days for counts
0, 1, 2 and 90 for any count ≥ 3; spaced — 3, 5, 7; spaced-5 — 5, 7, 14;
spaced-7 — 7, 14, 30; and 90 days beyond each table. -/
theorem C2_interval_table (now : Int) (c : Nat) :
    calculateNextReminder now c "smart" =
      now + (if c = 0 then 1 else if c = 1 then 7 else if c = 2 then 30 else 90) * dayMs
  ∧ calculateNextReminder now c "spaced" =
      now + (if c = 0 then 3 else if c = 1 then 5 else if c = 2 then 7 else 90) * dayMs
  ∧ calculateNextReminder now c "spaced-5" =
      now + (if c = 0 then 5 else if c = 1 then 7 else if c = 2 then 14 else 90) * dayMs
  ∧ calculateNextReminder now c "spaced-7" =
      now + (if c = 0 then 7 else if c = 1 then 14 else if c = 2 then 30 else 90) * dayMs := by
  have hsm : pyStartsWith "smart" "spaced" = false := by decide
  have hs0 : pyStartsWith "spaced" "spaced" = true := by decide
  have hs5 : pyStartsWith "spaced-5" "spaced" = true := by decide
  have hs7 : pyStartsWith "spaced-7" "spaced" = true := by decide
  have e0 : spacedStartDays "spaced" = 3 := by decide
  have e5 : spacedStartDays "spaced-5" = 5 := by decide
  have e7 : spacedStartDays "spaced-7" = 7 := by decide
  refine ⟨?_, ?_, ?_, ?_⟩ <;>
    rcases c with _ | _ | _ | n <;>
      simp [calculateNextReminder, calculateNextReminderDays, hsm, hs0, hs5, hs7, e0, e5, e7,
        smartDays, spacedDays]

/-- C10: a profile starting with `spaced` whose suffix after `-` is not a
valid integer silently falls back to starting offset 3, behaving exactly
like the plain `spaced` profile; a valid integer starting offset N
outside {3, 5, 7} gives N days at count 0 and the 90-day default at
counts 1 and 2. -/
theorem C10_spaced_profile_parsing (now : Int) (profile : String) :
    (∀ c : Nat, pyStartsWith profile "spaced" = true → strContains profile "-" = true →
       pyIntOfString ((pySplit profile "-").getD 1 "") = none →
       calculateNextReminder now c profile = calculateNextReminder now c "spaced")
  ∧ (∀ N : Int, pyStartsWith profile "spaced" = true → strContains profile "-" = true →
       pyIntOfString ((pySplit profile "-").getD 1 "") = some N → N ≠ 3 → N ≠ 5 → N ≠ 7 →
       calculateNextReminder now 0 profile = now + N * dayMs ∧
       calculateNextReminder now 1 profile = now + 90 * dayMs ∧
       calculateNextReminder now 2 profile = now + 90 * dayMs) := by
  constructor
  · intro c hsw hdash hparse
    have h1 : spacedStartDays profile = 3 := by
      simp only [spacedStartDays, hdash, if_true, hparse]
    have h2 : spacedStartDays "spaced" = 3 := by decide
    have h3 : pyStartsWith "spaced" "spaced" = true := by decide
    simp [calculateNextReminder, calculateNextReminderDays, hsw, h1, h2, h3]
  · intro N hsw hdash hparse hn3 hn5 hn7
    have h1 : spacedStartDays profile = N := by
      simp only [spacedStartDays, hdash, if_true, hparse]
    refine ⟨?_, ?_, ?_⟩ <;>
      simp [calculateNextReminder, calculateNextReminderDays, hsw, h1, spacedDays, hn3, hn5, hn7]

/-- Witness for C10 at the profiles `spaced-x` (invalid integer suffix)
and `spaced-10` (valid offset outside the stepped table). -/
theorem C10_spaced_profile_parsing_witness :
    calculateNextReminder 0 2 "spaced-x" = calculateNextReminder 0 2 "spaced"
  ∧ calculateNextReminder 0 0 "spaced-10" = 0 + 10 * dayMs
  ∧ calculateNextReminder 0 1 "spaced-10" = 0 + 90 * dayMs :=
  ⟨(C10_spaced_profile_parsing 0 "spaced-x").1 2 (by decide) (by decide) (by decide),
   ((C10_spaced_profile_parsing 0 "spaced-10").2 10 (by decide) (by decide) (by decide)
      (by decide) (by decide) (by decide)).1,
   ((C10_spaced_profile_parsing 0 "spaced-10").2 10 (by decide) (by decide) (by decide)
      (by decide) (by decide) (by decide)).2.1⟩

/-- C4: `handle_reminder_intent` strips URLs first; any normalised input
containing `tomorrow` yields now+1 day; the exact trimmed lowercased
strings `1`, `2`, `3` yield now+1, now+3, now+7 days; a string merely
containing such a digit (e.g. `I said 2 things`) yields none; the Hebrew
phrase for next week yields now+7 days; and an input matching no pattern
yields none. -/
theorem C4_reminder_intent_parsing (now : Int) (text : String) :
    (strContains (normalizeReminderText text) "tomorrow" = true →
       handleReminderIntent now text = some (now + 1 * dayMs))
  ∧ (normalizeReminderText text = "1" → handleReminderIntent now text = some (now + 1 * dayMs))
  ∧ (normalizeReminderText text = "2" → handleReminderIntent now text = some (now + 3 * dayMs))
  ∧ (normalizeReminderText text = "3" → handleReminderIntent now text = some (now + 7 * dayMs))
  ∧ handleReminderIntent now "see this: https://x.com tomorrow" = some (now + 1 * dayMs)
  ∧ handleReminderIntent now "I said 2 things" = none
  ∧ handleReminderIntent now "שבוע הבא" = some (now + 7 * dayMs)
  ∧ (reminderAnyPattern (normalizeReminderText text) = false →
       handleReminderIntent now text = none) := by
  refine ⟨?_, ?_, ?_, ?_, ?_, ?_, ?_, ?_⟩
  · intro h
    simp [handleReminderIntent, handleReminderIntentDays, reminderDaysOfNormalized, h]
  · intro h
    have hd : handleReminderIntentDays text = some 1 := by
      rw [handleReminderIntentDays, h]; decide
    simp [handleReminderIntent, hd]
  · intro h
    have hd : handleReminderIntentDays text = some 3 := by
      rw [handleReminderIntentDays, h]; decide
    simp [handleReminderIntent, hd]
  · intro h
    have hd : handleReminderIntentDays text = some 7 := by
      rw [handleReminderIntentDays, h]; decide
    simp [handleReminderIntent, hd]
  · have hd : handleReminderIntentDays "see this: https://x.com tomorrow" = some 1 := by decide
    simp [handleReminderIntent, hd]
  · have hd : handleReminderIntentDays "I said 2 things" = none := by decide
    simp [handleReminderIntent, hd]
  · have hd : handleReminderIntentDays "שבוע הבא" = some 7 := by decide
    simp [handleReminderIntent, hd]
  · intro h
    simp only [reminderAnyPattern, Bool.or_eq_false_iff] at h
    obtain ⟨⟨⟨⟨⟨⟨⟨⟨h1, h2⟩, h3⟩, h4⟩, h5⟩, h6⟩, h7⟩, h8⟩, h9⟩ := h
    have h3' : findInDays (normalizeReminderText text).data = none :=
      Option.not_isSome_iff_eq_none.mp (by simp [h3])
    have h6' : findHebDays (normalizeReminderText text).data = none :=
      Option.not_isSome_iff_eq_none.mp (by simp [h6])
    have h7' : ¬(pyStrip (normalizeReminderText text) = "1") := by
      simpa using h7
    have h8' : ¬(pyStrip (normalizeReminderText text) = "2") := by
      simpa using h8
    have h9' : ¬(pyStrip (normalizeReminderText text) = "3") := by
      simpa using h9
    simp [handleReminderIntent, handleReminderIntentDays, reminderDaysOfNormalized,
      h1, h2, h3', h4, h5, h6', h7', h8', h9']

/-- Witness for C4 at the shortcut, containment and no-match cases. -/
theorem C4_reminder_intent_parsing_witness :
    handleReminderIntent 0 "see this: https://x.com tomorrow" = some (0 + 1 * dayMs)
  ∧ handleReminderIntent 0 " 2 " = some (0 + 3 * dayMs)
  ∧ handleReminderIntent 0 "hello world" = none :=
  ⟨(C4_reminder_intent_parsing 0 "see this: https://x.com tomorrow").2.2.2.2.1,
   (C4_reminder_intent_parsing 0 " 2 ").2.2.1 (by decide),
   (C4_reminder_intent_parsing 0 "hello world").2.2.2.2.2.2.2 (by decide)⟩

/-- C3: after a due pending reminder is sent successfully, an incremented
count reaching 3 completes the reminder and clears the due timestamp;
below 3 the count increments, the status stays pending and the new due
time is stored as an integer epoch-ms value computed by
`calculate_next_reminder`. -/
theorem C3_reminder_state_transition (now : Int)
    (sendErr : String → String → Option String) (phone : String)
    (l : LinkDoc) (hsend : sendErr phone l.id = none) (hpend : l.reminderStatus = "pending") :
    ((processDueLink now sendErr phone l).1).reminderCount = l.reminderCount + 1
  ∧ (l.reminderCount + 1 ≥ 3 →
      ((processDueLink now sendErr phone l).1).reminderStatus = "completed" ∧
      ((processDueLink now sendErr phone l).1).nextReminderAt = .null)
  ∧ (l.reminderCount + 1 < 3 →
      ((processDueLink now sendErr phone l).1).reminderStatus = "pending" ∧
      ((processDueLink now sendErr phone l).1).nextReminderAt =
        .ms (calculateNextReminder now (l.reminderCount + 1) (l.reminderProfile.getD "smart"))) := by
  by_cases h3 : l.reminderCount + 1 ≥ 3 <;>
    simp [processDueLink, hsend, h3, hpend]

/-- Witness for C3 at a first-time reminder (count 0 → 1, stays pending)
and a final reminder (count 2 → 3, completed). -/
theorem C3_reminder_state_transition_witness :
    ((processDueLink 0 (fun _ _ => none) "p"
        ⟨"l1", "pending", .ms 0, 0, none⟩).1).reminderCount = 0 + 1
  ∧ ((processDueLink 0 (fun _ _ => none) "p"
        ⟨"l1", "pending", .ms 0, 0, none⟩).1).reminderStatus = "pending"
  ∧ ((processDueLink 0 (fun _ _ => none) "p"
        ⟨"l1", "pending", .ms 0, 0, none⟩).1).nextReminderAt =
      .ms (calculateNextReminder 0 (0 + 1) ((none : Option String).getD "smart"))
  ∧ ((processDueLink 0 (fun _ _ => none) "p"
        ⟨"l2", "pending", .ms 0, 2, none⟩).1).reminderStatus = "completed"
  ∧ ((processDueLink 0 (fun _ _ => none) "p"
        ⟨"l2", "pending", .ms 0, 2, none⟩).1).nextReminderAt = .null :=
  ⟨(C3_reminder_state_transition 0 (fun _ _ => none) "p"
      ⟨"l1", "pending", .ms 0, 0, none⟩ rfl rfl).1,
   ((C3_reminder_state_transition 0 (fun _ _ => none) "p"
      ⟨"l1", "pending", .ms 0, 0, none⟩ rfl rfl).2.2 (by norm_num)).1,
   ((C3_reminder_state_transition 0 (fun _ _ => none) "p"
      ⟨"l1", "pending", .ms 0, 0, none⟩ rfl rfl).2.2 (by norm_num)).2,
   ((C3_reminder_state_transition 0 (fun _ _ => none) "p"
      ⟨"l2", "pending", .ms 0, 2, none⟩ rfl rfl).2.1 (by norm_num)).1,
   ((C3_reminder_state_transition 0 (fun _ _ => none) "p"
      ⟨"l2", "pending", .ms 0, 2, none⟩ rfl rfl).2.1 (by norm_num)).2⟩

end MyLinks

namespace MyLinks

/-- C9: if sending the notification for a due item raises, that item is
left completely unchanged, the error is recorded, and the sweep keeps
processing every remaining due item and every remaining user: the loop
result is pointwise in the due list, the recorded errors reach the
report of `run_reminder_check`, and every user is visited. -/
theorem C9_send_failure_isolation (now : Int)
    (sendErr : String → String → Option String) (phone : String)
    (due : List LinkDoc) (l : LinkDoc) (e : String)
    (hmem : l ∈ due) (hfail : sendErr phone l.id = some e) :
    (runDueLoop now sendErr phone due).1 =
      due.map (fun x => (processDueLink now sendErr phone x).1)
  ∧ (processDueLink now sendErr phone l).1 = l
  ∧ ("Failed to send reminder for link " ++ l.id ++ ": " ++ e) ∈
      (runDueLoop now sendErr phone due).2.1
  ∧ (∀ links0 : List LinkDoc, (sweepUserLinks now sendErr phone links0).2.1 =
      (runDueLoop now sendErr phone
        (((links0.map cleanupLink).filter (isDue now)).take 10)).2.1)
  ∧ (∀ (u : UserDoc) (rest : List UserDoc) (qe : String → Option String),
      u.remindersEnabled = true → u.phone = some phone → qe u.uid = none →
      ((runReminderCheck now sendErr qe (u :: rest)).1).errors =
        (sweepUserLinks now sendErr phone u.links).2.1 ++
          ((runReminderCheck now sendErr qe rest).1).errors)
  ∧ (∀ (users : List UserDoc) (qe : String → Option String),
      ((runReminderCheck now sendErr qe users).1).usersChecked = users.length ∧
      ((runReminderCheck now sendErr qe users).2).length = users.length) := by
  refine ⟨runDueLoop_links now sendErr phone due, ?_, ?_, fun links0 => rfl, ?_,
          fun users qe => runReminderCheck_counts now sendErr qe users⟩
  · simp [processDueLink, hfail]
  · rw [runDueLoop_errors]
    exact List.mem_filterMap.mpr ⟨l, hmem, by simp [processDueLink, hfail]⟩
  · intro u rest qe he hp hq
    simp [runReminderCheck, he, hp, hq]

/-- Witness for C9: a due list where the first send raises and the second
succeeds. -/
theorem C9_send_failure_isolation_witness :
    (processDueLink 7 (fun _ lid => if lid = "l1" then some "boom" else none) "p"
       ⟨"l1", "pending", .ms 0, 0, none⟩).1 = ⟨"l1", "pending", .ms 0, 0, none⟩
  ∧ ("Failed to send reminder for link l1: boom") ∈
      (runDueLoop 7 (fun _ lid => if lid = "l1" then some "boom" else none) "p"
        [⟨"l1", "pending", .ms 0, 0, none⟩, ⟨"l2", "pending", .ms 3, 1, none⟩]).2.1 := by
  refine ⟨?_, ?_⟩
  · exact (C9_send_failure_isolation 7
      (fun _ lid => if lid = "l1" then some "boom" else none) "p"
      [⟨"l1", "pending", .ms 0, 0, none⟩, ⟨"l2", "pending", .ms 3, 1, none⟩]
      ⟨"l1", "pending", .ms 0, 0, none⟩ "boom" (by simp) (by simp)).2.1
  · exact (C9_send_failure_isolation 7
      (fun _ lid => if lid = "l1" then some "boom" else none) "p"
      [⟨"l1", "pending", .ms 0, 0, none⟩, ⟨"l2", "pending", .ms 3, 1, none⟩]
      ⟨"l1", "pending", .ms 0, 0, none⟩ "boom" (by simp) (by simp)).2.2.1

/-- C8: every entry of the final related-links output carries an id that
was both returned by the LLM verification pass and present among the
retrieved nearest-neighbour candidates (excluding the new link itself);
hence any candidate absent from the verification response is absent from
the output. -/
theorem C8_graph_link_precision (newId : String) (q : Except Unit (List CandidateDoc))
    (llm : Except Unit (List LlmRelation)) (out : RelatedOut)
    (hout : out ∈ findRelatedLinks newId q llm) :
    (∃ rels, llm = .ok rels ∧ ∃ rel ∈ rels, rel.id = some out.id)
  ∧ (∃ docs, q = .ok docs ∧ ∃ c ∈ docs, c.id = out.id ∧ out.id ≠ newId) := by
  rcases q with _ | docs
  · simp [findRelatedLinks] at hout
  rcases llm with _ | rels
  · by_cases h : (docs.filter (candKeep newId)).isEmpty = true <;>
      simp [findRelatedLinks, h] at hout
  by_cases hempty : (docs.filter (candKeep newId)).isEmpty = true
  · simp [findRelatedLinks, hempty] at hout
  have hout2 : out ∈ rels.filterMap (relFormat (docs.filter (candKeep newId))) := by
    simpa [findRelatedLinks, hempty] using hout
  rw [List.mem_filterMap] at hout2
  obtain ⟨rel, hrel, hf⟩ := hout2
  unfold relFormat at hf
  rcases hid : rel.id with _ | tid
  · rw [hid] at hf
    exact absurd hf (by simp)
  rw [hid] at hf
  simp only [] at hf
  rcases hlook : lookupLastCand (docs.filter (candKeep newId)) tid with _ | c
  · rw [hlook] at hf
    exact absurd hf (by simp)
  rw [hlook] at hf
  have hoid : out.id = tid := by
    cases hf
    rfl
  constructor
  · exact ⟨rels, rfl, rel, hrel, by rw [hid, hoid]⟩
  · have hcmem : c ∈ (docs.filter (candKeep newId)).reverse :=
      List.mem_of_find?_eq_some hlook
    have hcid : c.id = tid := by
      have hp := List.find?_some hlook
      simpa using hp
    rw [List.mem_reverse] at hcmem
    have hcf := List.mem_filter.mp hcmem
    refine ⟨docs, rfl, c, hcf.1, ?_, ?_⟩
    · rw [hcid, hoid]
    · rw [hoid, ← hcid]
      have hk := hcf.2
      simpa [candKeep] using hk

/-- Witness for C8: one retrieved candidate whose id the verification
pass returns. -/
theorem C8_graph_link_precision_witness :
    (∃ rels, (Except.ok [({
          id := some "c1", reason := some "shared thesis",
          similarity := some 1, commonConcepts := some [] } : LlmRelation)] :
            Except Unit (List LlmRelation)) = Except.ok rels ∧
        ∃ rel ∈ rels,
          rel.id = some ({
            id := "c1", title := some "T1", reason := some "shared thesis",
            similarity := 1, commonConcepts := [] } : RelatedOut).id)
  ∧ (∃ docs, (Except.ok [({
          id := "c1", title := some "T1", summary := none,
          concepts := [] } : CandidateDoc)] : Except Unit (List CandidateDoc)) =
            Except.ok docs ∧
        ∃ c ∈ docs,
          c.id = ({
            id := "c1", title := some "T1", reason := some "shared thesis",
            similarity := 1, commonConcepts := [] } : RelatedOut).id ∧
          ({
            id := "c1", title := some "T1", reason := some "shared thesis",
            similarity := 1, commonConcepts := [] } : RelatedOut).id ≠ "new") :=
  C8_graph_link_precision "new"
    (.ok [{ id := "c1", title := some "T1", summary := none, concepts := [] }])
    (.ok [{ id := some "c1", reason := some "shared thesis",
            similarity := some 1, commonConcepts := some [] }])
    { id := "c1", title := some "T1", reason := some "shared thesis",
      similarity := 1, commonConcepts := [] }
    (by decide)

end MyLinks

namespace MyLinks

/-- C6 counterexample: a JSON bare-string model response is returned by
`analyze_text` unchanged (not as an object with non-null fields — the
orchestrator validation then raises `ValueError`), and an object response
with six tags passes through with no tag-count bound applied; so the
claim that `analyze` always yields a dict with non-null title, summary,
category and at most five tags fails. -/
theorem C6_nonobject_counterexample :
    isPdict (analyzeText true (.text (some (.pstr "just a note")))) = false
  ∧ validateAnalysis (.pstr "just a note") =
      .error "AI Analysis failed to return a valid object"
  ∧ analyzeText true (.text (some (.pdict {
      title := some "t", summary := some "s", category := some "c",
      tags := some ["a", "b", "c", "d", "e", "f"] }))) =
      .pdict {
        title := some "t", summary := some "s", category := some "c",
        tags := some ["a", "b", "c", "d", "e", "f"] }
  ∧ ¬((["a", "b", "c", "d", "e", "f"] : List String).length ≤ 5) :=
  ⟨rfl, rfl, rfl, by simp⟩

/-- C6 amended: `analyze_text` substitutes the deterministic fallback
annotation (placeholder title/summary, category General, single tag
failed) exactly when the client is missing, the call fails, the response
is empty, or its text is not valid JSON; a parsed JSON value is returned
unchanged whatever its shape, and the orchestrator validation unwraps a
non-empty list to its first element and raises `ValueError` on any
remaining non-object (handled by the degraded-save path); no tag-count
bound is enforced for object responses. -/
theorem C6_analysis_fallback_behavior (resp : ModelResp) :
    analyzeText false resp = mockAnalysis
  ∧ analyzeText true .callFailed = mockAnalysis
  ∧ analyzeText true .emptyResponse = mockAnalysis
  ∧ analyzeText true (.text none) = mockAnalysis
  ∧ (∀ v, analyzeText true (.text (some v)) = v)
  ∧ (∀ d, validateAnalysis (.pdict d) = .ok d)
  ∧ (∀ d rest, validateAnalysis (.plist (.pdict d :: rest)) = .ok d)
  ∧ (∀ s, validateAnalysis (.pstr s) = .error "AI Analysis failed to return a valid object")
  ∧ validateAnalysis (.plist []) = .error "AI Analysis failed to return a valid object"
  ∧ validateAnalysis PyVal.pnone = .error "AI Analysis failed to return a valid object"
  ∧ mockAnalysis = .pdict {
      title := some "Untitled (Analysis Failed)",
      summary := some "Processing of this link failed or Gemini API was unavailable. Please check original.",
      category := some "General", tags := some ["failed"],
      actionableTakeaway := some "None" }
  ∧ (["failed"] : List String).length ≤ 5 :=
  ⟨by simp [analyzeText], rfl, rfl, rfl, fun v => rfl, fun d => rfl,
   fun d rest => rfl, fun s => rfl, rfl, rfl, rfl, by simp⟩

/-- C1: for every combination of stage outcomes (extraction, analysis,
validation, embedding, graph-linking each succeeding or failing), the
background worker persists exactly one record — the enriched record or
the degraded record — and attempts exactly one outbound reply; the
degraded record carries the scraped title, a `Cloud processing error`
summary, the `Processing Failed` sentinel tag and zero read time.  The
closing conjunct evaluates the failing input of the claim: with a failed
extraction (empty scrape result) and a raised analysis stage, the
persisted degraded title is the empty string, not the URL — the
`scraped.get("title", url)` default never fires. -/
theorem C1_orchestrator_always_persists (now : Int) (url body : String)
    (s : Except String Scraped) (a : Except String PyVal)
    (emb : Except String (List Int)) (g : Except String (List RelatedOut)) :
    (processLinkBackground now url body s a emb g).records.length = 1
  ∧ (processLinkBackground now url body s a emb g).replyAttempts = 1
  ∧ (∀ r ∈ (processLinkBackground now url body s a emb g).records,
      (∃ sc d e2 rel, r = enrichedRecord now url sc d e2 rel) ∨
      (∃ sc m, r = fallbackRecord now url sc m))
  ∧ (∀ sc m, (fallbackRecord now url sc m).title = sc.title ∧
      (fallbackRecord now url sc m).summary = "Cloud processing error: " ++ m ∧
      (fallbackRecord now url sc m).tags = ["Processing Failed"] ∧
      (fallbackRecord now url sc m).estimatedReadTime = 0)
  ∧ ((processLinkBackground 0 "https://example.com/a" "see https://example.com/a"
        (.ok ⟨"", "", ""⟩) (.error "analysis down") (.ok []) (.ok [])).records =
      [fallbackRecord 0 "https://example.com/a" ⟨"", "", ""⟩ "analysis down"]
     ∧ (fallbackRecord 0 "https://example.com/a" ⟨"", "", ""⟩ "analysis down").title = ""
     ∧ ("" : String) ≠ "https://example.com/a") := by
  refine ⟨?_, ?_, ?_, fun sc m => ⟨rfl, rfl, rfl, rfl⟩, rfl, rfl, by decide⟩
  · rcases s with es | sc
    · rfl
    rcases a with ea | raw
    · rfl
    rcases hv : validateAnalysis raw with ev | an
    · simp [processLinkBackground, hv, fallbackOutcome]
    rcases emb with ee | el
    · simp [processLinkBackground, hv, fallbackOutcome]
    rcases g with eg | gl
    · simp [processLinkBackground, hv, fallbackOutcome]
    · simp [processLinkBackground, hv]
  · rcases s with es | sc
    · rfl
    rcases a with ea | raw
    · rfl
    rcases hv : validateAnalysis raw with ev | an
    · simp [processLinkBackground, hv, fallbackOutcome]
    rcases emb with ee | el
    · simp [processLinkBackground, hv, fallbackOutcome]
    rcases g with eg | gl
    · simp [processLinkBackground, hv, fallbackOutcome]
    · simp [processLinkBackground, hv]
  · intro r hr
    rcases s with es | sc
    · right
      simp [processLinkBackground, fallbackOutcome] at hr
      exact ⟨_, _, hr⟩
    rcases a with ea | raw
    · right
      simp [processLinkBackground, fallbackOutcome] at hr
      exact ⟨_, _, hr⟩
    rcases hv : validateAnalysis raw with ev | an
    · right
      simp [processLinkBackground, hv, fallbackOutcome] at hr
      exact ⟨_, _, hr⟩
    rcases emb with ee | el
    · right
      simp [processLinkBackground, hv, fallbackOutcome] at hr
      exact ⟨_, _, hr⟩
    rcases g with eg | gl
    · right
      simp [processLinkBackground, hv, fallbackOutcome] at hr
      exact ⟨_, _, hr⟩
    · left
      simp [processLinkBackground, hv] at hr
      exact ⟨sc, an, el, gl, hr⟩

/-- Witness for C1 at a failed analysis stage. -/
theorem C1_orchestrator_always_persists_witness :
    (processLinkBackground 0 "u" "b" (.ok ⟨"", "t", "x"⟩) (.error "boom")
       (.ok []) (.ok [])).records.length = 1
  ∧ (processLinkBackground 0 "u" "b" (.ok ⟨"", "t", "x"⟩) (.error "boom")
       (.ok []) (.ok [])).replyAttempts = 1
  ∧ ((∃ sc d e2 rel, fallbackRecord 0 "u" ⟨"", "t", "x"⟩ "boom" =
        enrichedRecord 0 "u" sc d e2 rel) ∨
     (∃ sc m, fallbackRecord 0 "u" ⟨"", "t", "x"⟩ "boom" = fallbackRecord 0 "u" sc m)) :=
  ⟨(C1_orchestrator_always_persists 0 "u" "b" (.ok ⟨"", "t", "x"⟩) (.error "boom")
      (.ok []) (.ok [])).1,
   (C1_orchestrator_always_persists 0 "u" "b" (.ok ⟨"", "t", "x"⟩) (.error "boom")
      (.ok []) (.ok [])).2.1,
   (C1_orchestrator_always_persists 0 "u" "b" (.ok ⟨"", "t", "x"⟩) (.error "boom")
      (.ok []) (.ok [])).2.2.1
     (fallbackRecord 0 "u" ⟨"", "t", "x"⟩ "boom") (by decide)⟩

end MyLinks

namespace MyLinks

/-- C5 counterexample: on total extraction failure for an Instagram URL
the scraper does not return the empty-result shape — the title is
`Instagram Link` and the text a placeholder — so the claim that every
URL type degrades to empty title and empty text fails. -/
theorem C5_instagram_counterexample :
    scrapeUrl failEnv "https://www.instagram.com/p/abc" none =
      ⟨"", "Instagram Link", "Instagram content (metadata extraction failed)"⟩
  ∧ ("Instagram Link" : String) ≠ ""
  ∧ ("Instagram content (metadata extraction failed)" : String) ≠ "" :=
  ⟨by decide, by decide, by decide⟩

/-- C5 amended: `scrape_url` never raises (the embedding is a total
function whose top-level handler catches every escape path), and on total
extraction failure — every network request failing, no usable message
text — the generic and short-form-post branches return the all-empty
shape, while the Instagram branch returns the `Instagram Link`
placeholder dict and the YouTube branch returns the `YouTube Video` title
with empty text. -/
theorem C5_total_failure_shapes (env : ScrapeEnv) (url : String)
    (hfx : env.fx = .err) (hvx : env.vx = .err) (hmeta : env.metaFetch = .err)
    (hdir : env.instaDirect = .err) (hib : ∀ b, env.instaBridge b = .err)
    (hyt : env.ytPage = .error ()) (hgen : env.genFetch = .err) :
    scrapeUrl env url none =
      if strContains url "twitter.com" || strContains url "x.com" then ⟨"", "", ""⟩
      else if strContains url "instagram.com" then
        ⟨"", "Instagram Link", "Instagram content (metadata extraction failed)"⟩
      else if strContains url "youtube.com" || strContains url "youtu.be" then
        ⟨"", "YouTube Video", ""⟩
      else ⟨"", "", ""⟩ := by
  unfold scrapeUrl
  split_ifs with h1 h2 h3
  · rw [hfx, hvx, hmeta]
    decide
  · rw [hdir]
    simp [scrapeInstagramUrl, instaDirectStep, instaBridgeStep, hib, instaCaptionStep]
  · by_cases hv : extractVideoId url = "" <;> simp [scrapeYoutubeUrl, hyt, hv]
  · rw [hgen]
    rfl

/-- Witness for C5 in the all-failures world at one URL per branch. -/
theorem C5_total_failure_shapes_witness :
    scrapeUrl failEnv "https://x.com/u/status/1" none = ⟨"", "", ""⟩
  ∧ scrapeUrl failEnv "https://www.youtube.com/watch?v=abc" none = ⟨"", "YouTube Video", ""⟩
  ∧ scrapeUrl failEnv "https://example.com/page" none = ⟨"", "", ""⟩ :=
  ⟨(C5_total_failure_shapes failEnv "https://x.com/u/status/1" rfl rfl rfl rfl
      (fun b => rfl) rfl rfl).trans (by decide),
   (C5_total_failure_shapes failEnv "https://www.youtube.com/watch?v=abc" rfl rfl rfl rfl
      (fun b => rfl) rfl rfl).trans (by decide),
   (C5_total_failure_shapes failEnv "https://example.com/page" rfl rfl rfl rfl
      (fun b => rfl) rfl rfl).trans (by decide)⟩

/-- C7: in the short-form-post chain, an empty primary bridge result
hands control to the secondary bridge (the outcome equals the pipeline
run without the primary); a secondary result at or under the 100
character thinness threshold with no media triggers the direct metadata
scrape; if all three yield nothing the empty result is returned; and if
the metadata scrape yields nothing while a thin secondary result exists,
that thin result is returned rather than empty. -/
theorem C7_twitter_fallback_chain (fx : FetchRes (Option FxTweet)) (vx : FetchRes VxData)
    (meta : FetchRes String) :
    (fxYieldsNothing fx = true →
      scrapeTwitterUrl fx vx meta = scrapeTwitterUrl .err vx meta)
  ∧ (∀ d, fxYieldsNothing fx = true → vx = .ok d → (d.text.getD "").length ≤ 100 →
      vxHasMedia d = false →
      scrapeTwitterUrl fx vx meta =
        (if (scrapeTwitterMetadata meta).title ≠ "" ∨ (scrapeTwitterMetadata meta).text ≠ "" then
          scrapeTwitterMetadata meta
         else formatVxData d))
  ∧ (fxYieldsNothing fx = true → (vx = .err ∨ vx = .notOk) →
      scrapeTwitterMetadata meta = ⟨"", "", ""⟩ →
      scrapeTwitterUrl fx vx meta = ⟨"", "", ""⟩)
  ∧ (∀ d, fxYieldsNothing fx = true → vx = .ok d → (d.text.getD "").length ≤ 100 →
      vxHasMedia d = false → scrapeTwitterMetadata meta = ⟨"", "", ""⟩ →
      scrapeTwitterUrl fx vx meta = formatVxData d) := by
  have key : fxYieldsNothing fx = true →
      scrapeTwitterUrl fx vx meta = scrapeTwitterUrl .err vx meta := by
    intro h
    rcases fx with _ | _ | t
    · rfl
    · rfl
    rcases t with _ | tw
    · rfl
    · have hc : fxTweetHasContent tw = false := by
        simpa [fxYieldsNothing] using h
      simp [scrapeTwitterUrl, hc]
  refine ⟨key, ?_, ?_, ?_⟩
  · intro d h hvx hlen hmedia
    subst hvx
    rw [key h]
    have hgt : ¬((d.text.getD "").length > 100) := by omega
    by_cases hm : (scrapeTwitterMetadata meta).title ≠ "" ∨
        (scrapeTwitterMetadata meta).text ≠ "" <;>
      simp [scrapeTwitterUrl, hmedia, hgt, hm]
  · intro h hv hmeta
    rw [key h]
    rcases hv with hv | hv <;> subst hv <;> simp [scrapeTwitterUrl, hmeta]
  · intro d h hvx hlen hmedia hmeta
    subst hvx
    rw [key h]
    have hgt : ¬((d.text.getD "").length > 100) := by omega
    simp [scrapeTwitterUrl, hmedia, hgt, hmeta]

/-- Witness for C7: empty primary bridge, thin secondary (short text, no
media), failing metadata scrape — the thin result is returned; with the
secondary also failing, the empty result is returned. -/
theorem C7_twitter_fallback_chain_witness :
    scrapeTwitterUrl (.ok none) (.ok ⟨0, 0, some "hi", none, none, none, none, none⟩) .err =
      scrapeTwitterUrl .err (.ok ⟨0, 0, some "hi", none, none, none, none, none⟩) .err
  ∧ scrapeTwitterUrl (.ok none) (.ok ⟨0, 0, some "hi", none, none, none, none, none⟩) .err =
      formatVxData ⟨0, 0, some "hi", none, none, none, none, none⟩
  ∧ scrapeTwitterUrl (.ok none) .err .err = ⟨"", "", ""⟩ :=
  ⟨(C7_twitter_fallback_chain (.ok none)
      (.ok ⟨0, 0, some "hi", none, none, none, none, none⟩) .err).1 (by decide),
   (C7_twitter_fallback_chain (.ok none)
      (.ok ⟨0, 0, some "hi", none, none, none, none, none⟩) .err).2.2.2
     ⟨0, 0, some "hi", none, none, none, none, none⟩ (by decide) rfl (by decide)
     (by decide) rfl,
   (C7_twitter_fallback_chain (.ok none) .err .err).2.2.1 (by decide) (Or.inl rfl) rfl⟩

end MyLinks
